import Mathlib

/-
Verification of the text-matching and feedback-retrieval core of the
Resume-Sudharak repository (src/feedback_generator.py).

The embedding below models:
  - match_score: CountVectorizer bag-of-words + cosine similarity, times
    100, rounded to two decimal places.  The vectorizer tokenizes on
    maximal runs of word characters of length at least two, after
    lowercasing; it raises when the combined vocabulary is empty, which we
    model by returning none.
  - analyze_resume_with_llm: input validation, prompt construction with
    hard truncation of the resume to its first 8000 characters, and a
    retry loop of MAX_RETRIES attempts that logs a warning and sleeps
    RETRY_DELAY seconds after every failed attempt, finally raising a
    generic exception.  The function is modelled as a trace: number of
    client invocations, number of sleeps, warning log, and the final
    result.
-/

namespace ResumeSudharak

/-! ## Similarity scorer (match_score) -/

/-- Word characters of the vectorizer token pattern: alphanumeric or
underscore (ASCII fragment of the regex class). -/
def isWordChar (c : Char) : Bool := c.isAlphanum || c = '_'

/-- Tokenization of CountVectorizer: lowercase the text, split into
maximal runs of word characters, keep the runs of length at least two. -/
def tokenize (s : String) : List String :=
  (((s.data.map Char.toLower).splitOnP (fun c => !isWordChar c)).filter
    (fun r => 2 ≤ r.length)).map String.mk

/-- The shared vocabulary fitted on the two documents. -/
def vocab (a b : String) : Finset String := (tokenize a ++ tokenize b).toFinset

/-- Count-vector entry: occurrences of the token w in the document. -/
def vec (doc w : String) : ℕ := (tokenize doc).count w

/-- Dot product of the two count vectors over the shared vocabulary. -/
def dotAB (a b : String) : ℕ := ∑ w ∈ vocab a b, vec a w * vec b w

/-- Squared norm of the first count vector over the shared vocabulary. -/
def dotAA (a b : String) : ℕ := ∑ w ∈ vocab a b, vec a w * vec a w

/-- Squared norm of the second count vector over the shared vocabulary. -/
def dotBB (a b : String) : ℕ := ∑ w ∈ vocab a b, vec b w * vec b w

/-- Cosine similarity of the two count vectors, as in
cosine_similarity(vect)[0][1]. -/
noncomputable def cosineSim (a b : String) : ℝ :=
  (dotAB a b : ℝ) / (Real.sqrt (dotAA a b) * Real.sqrt (dotBB a b))

/-- Rounding to two decimal places, as in round(x, 2). -/
noncomputable def round2 (y : ℝ) : ℝ := ((round (y * 100) : ℤ) : ℝ) / 100

/-- match_score(resume_text, job_description): none models the
empty-vocabulary ValueError of CountVectorizer. -/
noncomputable def match_score (resume_text job_description : String) : Option ℝ :=
  if vocab resume_text job_description = ∅ then none
  else some (round2 (cosineSim resume_text job_description * 100))

/-! ## Feedback retriever (analyze_resume_with_llm) -/

def DEFAULT_MODEL : String := "command-a-03-2025"
def MAX_RETRIES : ℕ := 3
def RETRY_DELAY : ℕ := 10

/-- Python str.strip(): drop leading and trailing whitespace. -/
def pyStrip (s : String) : String :=
  String.mk (((s.data.dropWhile Char.isWhitespace).reverse.dropWhile
    Char.isWhitespace).reverse)

/-- Python slicing s[:n]: the first n characters. -/
def pySlice (s : String) (n : ℕ) : String := String.mk (s.data.take n)

/-- The response object of the chat endpoint, of which only .text is used. -/
structure ChatResponse where
  text : String
deriving Repr, DecidableEq

/-- A chat client: given the number of previous invocations, the message
and the model identifier, either a response or a raised exception
(carried as its message string). -/
def Client : Type := ℕ → String → String → Except String ChatResponse

/-- Errors raised by analyze_resume_with_llm: the ValueError of input
validation, and the generic exception after exhausted retries. -/
inductive AnalyzeError where
  | invalidInput (msg : String)
  | exhaustedRetries (msg : String)
deriving Repr, DecidableEq

/-- Observable trace of one call to analyze_resume_with_llm: how many
times the client was invoked, how many sleeps of RETRY_DELAY seconds
happened, the warning log, and the outcome. -/
structure Trace where
  calls : ℕ
  sleeps : ℕ
  warnings : List String
  result : Except AnalyzeError String
deriving Repr

/-- The warning logged after a failed attempt (0-based attempt index). -/
def warnMsg (attempt : ℕ) (e : String) : String :=
  "Cohere API call failed (attempt " ++ toString (attempt + 1) ++ "): " ++ e

/-- The fixed message of the terminal exception. -/
def exhaustedMsg : String := "Failed to analyze resume after multiple attempts."

/-- Head of the prompt template, up to the resume content. -/
def promptHead (job_role job_description : String) : String :=
  "\n    As an expert resume reviewer, analyze this resume for the target job role.\n\n    JOB ROLE: "
    ++ job_role
    ++ "\n    JOB DESCRIPTION: "
    ++ (if job_description = "" then "Not provided" else job_description)
    ++ "\n\n    RESUME CONTENT:\n    "

/-- Tail of the prompt template, after the resume content. -/
def promptTail : String :=
  "\n\n    Provide structured feedback in these sections:\n\n    1. Missing Skills\n    2. Formatting Improvements  \n    3. Content Suggestions\n    4. Experience Tailoring\n    5. Overall Recommendations\n\n    Be specific and actionable. Use bullet points.\n    "

/-- The outbound prompt: the template embedding the job role, the job
description (or the placeholder when it is empty) and the first 8000
characters of the resume text. -/
def buildPrompt (resume_text job_role job_description : String) : String :=
  promptHead job_role job_description ++ pySlice resume_text 8000 ++ promptTail

/-- The for-loop over range(MAX_RETRIES): on success return the response
text; on failure log a warning, sleep RETRY_DELAY, continue; after the
loop raise the generic exception. attempt is the 0-based loop counter,
fuel the remaining iterations. -/
def attemptLoop (client : Client) (prompt : String) : ℕ → ℕ → Trace
  | _, 0 => ⟨0, 0, [], .error (.exhaustedRetries exhaustedMsg)⟩
  | attempt, fuel + 1 =>
    match client attempt prompt DEFAULT_MODEL with
    | .ok response => ⟨1, 0, [], .ok response.text⟩
    | .error e =>
      let rest := attemptLoop client prompt (attempt + 1) fuel
      ⟨rest.calls + 1, rest.sleeps + 1, warnMsg attempt e :: rest.warnings,
        rest.result⟩

/-- analyze_resume_with_llm(resume_text, job_role, job_description,
cohere_client), as the trace of its observable behavior. -/
def analyze_resume_with_llm (resume_text job_role job_description : String)
    (cohere_client : Client) : Trace :=
  if pyStrip resume_text = "" then
    ⟨0, 0, [], .error (.invalidInput "Resume text cannot be empty")⟩
  else if pyStrip job_role = "" then
    ⟨0, 0, [], .error (.invalidInput "Job role cannot be empty")⟩
  else
    attemptLoop cohere_client (buildPrompt resume_text job_role job_description)
      0 MAX_RETRIES

/-! ## Helper lemmas about the retry loop -/

/-- When every invocation of the client fails, the loop makes one call and
one sleep per remaining iteration and ends in the generic exhausted-retries
error. -/
lemma attemptLoop_allFail (client : Client) (prompt : String)
    (h : ∀ n msg mdl, ∃ e, client n msg mdl = Except.error e) :
    ∀ fuel start, (attemptLoop client prompt start fuel).calls = fuel ∧
      (attemptLoop client prompt start fuel).sleeps = fuel ∧
      (attemptLoop client prompt start fuel).result =
        Except.error (AnalyzeError.exhaustedRetries exhaustedMsg) := by
  intro fuel
  induction fuel with
  | zero => intro start; exact ⟨rfl, rfl, rfl⟩
  | succ n ih =>
    intro start
    obtain ⟨e, he⟩ := h start prompt DEFAULT_MODEL
    simp only [attemptLoop, he]
    obtain ⟨h1, h2, h3⟩ := ih (start + 1)
    exact ⟨by simp [h1], by simp [h2], h3⟩

/-- Concrete client that fails on every invocation. -/
def clientAllFail : Client := fun _ _ _ => Except.error "boom"

/-- Concrete client that fails on the first two invocations and succeeds
afterwards. -/
def clientThirdTime : Client := fun n _ _ =>
  if n < 2 then Except.error "boom" else Except.ok ⟨"looks good"⟩

/-- C1: a client failing on every attempt is invoked exactly 3 times and the
final error is the fixed generic message, independent of the per-attempt
errors. -/
theorem C1_exhausted_retries (resume_text job_role job_description : String)
    (client : Client)
    (hr : pyStrip resume_text ≠ "") (hj : pyStrip job_role ≠ "")
    (hfail : ∀ n msg mdl, ∃ e, client n msg mdl = Except.error e) :
    (analyze_resume_with_llm resume_text job_role job_description client).calls = 3 ∧
    (analyze_resume_with_llm resume_text job_role job_description client).result =
      Except.error (AnalyzeError.exhaustedRetries
        "Failed to analyze resume after multiple attempts.") := by
  unfold analyze_resume_with_llm
  rw [if_neg hr, if_neg hj]
  obtain ⟨h1, _, h3⟩ := attemptLoop_allFail client
    (buildPrompt resume_text job_role job_description) hfail MAX_RETRIES 0
  exact ⟨h1, h3⟩

/-- Witness for C1 at a concrete input. -/
theorem C1_exhausted_retries_witness :
    pyStrip "r" ≠ "" ∧ pyStrip "j" ≠ "" ∧
    (analyze_resume_with_llm "r" "j" "" clientAllFail).calls = 3 ∧
    (analyze_resume_with_llm "r" "j" "" clientAllFail).result =
      Except.error (AnalyzeError.exhaustedRetries
        "Failed to analyze resume after multiple attempts.") :=
  ⟨by decide, by decide,
    C1_exhausted_retries "r" "j" "" clientAllFail (by decide) (by decide)
      (fun _ _ _ => ⟨"boom", rfl⟩)⟩

/-- C2 counterexample: with a client failing on all attempts, the loop
sleeps 3 times, not MAX_RETRIES - 1 = 2 times, and blocks for
3 × 10 = 30 seconds, more than the claimed 20-second bound. -/
theorem C2_sleep_counterexample :
    (analyze_resume_with_llm "r" "j" "" clientAllFail).sleeps ≠ MAX_RETRIES - 1 ∧
    ¬ (analyze_resume_with_llm "r" "j" "" clientAllFail).sleeps * RETRY_DELAY ≤ 20 := by
  constructor
  · decide
  · decide

/-- C2 amended: the loop sleeps after every failed attempt, the last one
included, so in the worst case it performs exactly MAX_RETRIES = 3 sleeps
and blocks for MAX_RETRIES × RETRY_DELAY = 30 seconds before raising. -/
theorem C2_sleep_amended (resume_text job_role job_description : String)
    (client : Client)
    (hr : pyStrip resume_text ≠ "") (hj : pyStrip job_role ≠ "")
    (hfail : ∀ n msg mdl, ∃ e, client n msg mdl = Except.error e) :
    (analyze_resume_with_llm resume_text job_role job_description client).sleeps =
      MAX_RETRIES ∧
    (analyze_resume_with_llm resume_text job_role job_description client).sleeps *
      RETRY_DELAY = 30 := by
  unfold analyze_resume_with_llm
  rw [if_neg hr, if_neg hj]
  obtain ⟨_, h2, _⟩ := attemptLoop_allFail client
    (buildPrompt resume_text job_role job_description) hfail MAX_RETRIES 0
  exact ⟨h2, by rw [h2]; rfl⟩

/-- Witness for the amended C2 at a concrete input. -/
theorem C2_sleep_amended_witness :
    pyStrip "r" ≠ "" ∧ pyStrip "j" ≠ "" ∧
    (analyze_resume_with_llm "r" "j" "" clientAllFail).sleeps = MAX_RETRIES ∧
    (analyze_resume_with_llm "r" "j" "" clientAllFail).sleeps * RETRY_DELAY = 30 :=
  ⟨by decide, by decide,
    C2_sleep_amended "r" "j" "" clientAllFail (by decide) (by decide)
      (fun _ _ _ => ⟨"boom", rfl⟩)⟩

/-- C3: blank resume text or blank job role is rejected immediately: the
client is never invoked, no sleep happens, and an invalid-input error is
raised. -/
theorem C3_blank_input (resume_text job_role job_description : String)
    (client : Client)
    (h : pyStrip resume_text = "" ∨ pyStrip job_role = "") :
    (analyze_resume_with_llm resume_text job_role job_description client).calls = 0 ∧
    (analyze_resume_with_llm resume_text job_role job_description client).sleeps = 0 ∧
    ∃ m, (analyze_resume_with_llm resume_text job_role job_description client).result =
      Except.error (AnalyzeError.invalidInput m) := by
  unfold analyze_resume_with_llm
  rcases h with h | h
  · rw [if_pos h]
    exact ⟨rfl, rfl, "Resume text cannot be empty", rfl⟩
  · by_cases hr : pyStrip resume_text = ""
    · rw [if_pos hr]
      exact ⟨rfl, rfl, "Resume text cannot be empty", rfl⟩
    · rw [if_neg hr, if_pos h]
      exact ⟨rfl, rfl, "Job role cannot be empty", rfl⟩

/-- Witness for C3 at a concrete input. -/
theorem C3_blank_input_witness :
    (pyStrip "   " = "" ∨ pyStrip "j" = "") ∧
    (analyze_resume_with_llm "   " "j" "" clientAllFail).calls = 0 ∧
    (analyze_resume_with_llm "   " "j" "" clientAllFail).sleeps = 0 ∧
    ∃ m, (analyze_resume_with_llm "   " "j" "" clientAllFail).result =
      Except.error (AnalyzeError.invalidInput m) :=
  ⟨Or.inl (by decide),
    C3_blank_input "   " "j" "" clientAllFail (Or.inl (by decide))⟩

/-- C4: a client that fails on the first two attempts and succeeds on the
third yields exactly the text of the third response, with the client
invoked exactly 3 times. -/
theorem C4_third_attempt_success (resume_text job_role job_description : String)
    (client : Client) (s e0 e1 : String)
    (hr : pyStrip resume_text ≠ "") (hj : pyStrip job_role ≠ "")
    (h0 : client 0 (buildPrompt resume_text job_role job_description)
      DEFAULT_MODEL = Except.error e0)
    (h1 : client 1 (buildPrompt resume_text job_role job_description)
      DEFAULT_MODEL = Except.error e1)
    (h2 : client 2 (buildPrompt resume_text job_role job_description)
      DEFAULT_MODEL = Except.ok ⟨s⟩) :
    (analyze_resume_with_llm resume_text job_role job_description client).result =
      Except.ok s ∧
    (analyze_resume_with_llm resume_text job_role job_description client).calls = 3 := by
  unfold analyze_resume_with_llm
  rw [if_neg hr, if_neg hj]
  show (attemptLoop client _ 0 MAX_RETRIES).result = _ ∧
    (attemptLoop client _ 0 MAX_RETRIES).calls = 3
  rw [show MAX_RETRIES = 3 from rfl]
  simp [attemptLoop, h0, h1, h2]

/-- Witness for C4 at a concrete input. -/
theorem C4_third_attempt_success_witness :
    pyStrip "r" ≠ "" ∧ pyStrip "j" ≠ "" ∧
    (analyze_resume_with_llm "r" "j" "" clientThirdTime).result =
      Except.ok "looks good" ∧
    (analyze_resume_with_llm "r" "j" "" clientThirdTime).calls = 3 :=
  ⟨by decide, by decide,
    C4_third_attempt_success "r" "j" "" clientThirdTime "looks good" "boom" "boom"
      (by decide) (by decide) rfl rfl rfl⟩

/-- C5: the prompt depends only on the first 8000 characters of the resume
text; a resume of at most 8000 characters is embedded in full, and a longer
one contributes exactly its first 8000 characters. -/
theorem C5_resume_truncation (resume_text job_role job_description : String) :
    buildPrompt resume_text job_role job_description =
      buildPrompt (pySlice resume_text 8000) job_role job_description ∧
    (resume_text.length ≤ 8000 →
      buildPrompt resume_text job_role job_description =
        promptHead job_role job_description ++ resume_text ++ promptTail) ∧
    (8000 ≤ resume_text.length → (pySlice resume_text 8000).length = 8000) ∧
    (∀ rt2, pySlice rt2 8000 = pySlice resume_text 8000 →
      buildPrompt rt2 job_role job_description =
        buildPrompt resume_text job_role job_description) := by
  have hslice : ∀ s : String, pySlice (pySlice s 8000) 8000 = pySlice s 8000 := by
    intro s
    show String.mk ((s.data.take 8000).take 8000) = String.mk (s.data.take 8000)
    rw [List.take_take]
    norm_num
  refine ⟨?_, ?_, ?_, ?_⟩
  · unfold buildPrompt
    rw [hslice]
  · intro hlen
    unfold buildPrompt
    have : pySlice resume_text 8000 = resume_text := by
      show String.mk (resume_text.data.take 8000) = resume_text
      rw [List.take_of_length_le hlen]
    rw [this]
  · intro hlen
    show (String.mk (resume_text.data.take 8000)).length = 8000
    show (resume_text.data.take 8000).length = 8000
    rw [List.length_take]
    exact Nat.min_eq_left hlen
  · intro rt2 h
    unfold buildPrompt
    rw [h]

/-- Witness for C5 at a concrete input. -/
theorem C5_resume_truncation_witness :
    "abc".length ≤ 8000 ∧
    buildPrompt "abc" "jr" "jd" = promptHead "jr" "jd" ++ "abc" ++ promptTail :=
  ⟨by decide, (C5_resume_truncation "abc" "jr" "jd").2.1 (by decide)⟩

/-! ## Helper lemmas about the scorer -/

lemma vocab_comm (a b : String) : vocab a b = vocab b a := by
  simp [vocab, List.toFinset_append, Finset.union_comm]

lemma mem_vocab_left {a b w : String} (h : w ∈ tokenize a) : w ∈ vocab a b := by
  simp only [vocab, List.mem_toFinset, List.mem_append]
  exact Or.inl h

lemma mem_vocab_right {a b w : String} (h : w ∈ tokenize b) : w ∈ vocab a b := by
  simp only [vocab, List.mem_toFinset, List.mem_append]
  exact Or.inr h

lemma vec_eq_zero {doc w : String} (h : w ∉ tokenize doc) : vec doc w = 0 :=
  List.count_eq_zero.mpr h

lemma vec_pos {doc w : String} (h : w ∈ tokenize doc) : 0 < vec doc w :=
  List.count_pos_iff.mpr h

lemma dotAA_pos (a b : String) (ha : tokenize a ≠ []) : 0 < dotAA a b := by
  obtain ⟨w, hw⟩ := List.exists_mem_of_ne_nil _ ha
  refine Finset.sum_pos' (fun i _ => Nat.zero_le _) ⟨w, mem_vocab_left hw, ?_⟩
  exact Nat.mul_pos (vec_pos hw) (vec_pos hw)

lemma cosineSim_self (t : String) (h : tokenize t ≠ []) : cosineSim t t = 1 := by
  have hpos : 0 < dotAA t t := dotAA_pos t t h
  have hcast : (0 : ℝ) < (dotAA t t : ℝ) := by exact_mod_cast hpos
  unfold cosineSim
  have h1 : dotAB t t = dotAA t t := rfl
  have h2 : dotBB t t = dotAA t t := rfl
  rw [h1, h2, Real.mul_self_sqrt (Nat.cast_nonneg _)]
  exact div_self (ne_of_gt hcast)

lemma dotAB_comm (a b : String) : dotAB a b = dotAB b a := by
  unfold dotAB
  rw [vocab_comm]
  exact Finset.sum_congr rfl (fun w _ => Nat.mul_comm _ _)

lemma dotAA_swap (a b : String) : dotAA a b = dotBB b a := by
  unfold dotAA dotBB
  rw [vocab_comm]

lemma dotBB_swap (a b : String) : dotBB a b = dotAA b a := by
  unfold dotAA dotBB
  rw [vocab_comm]

lemma cosineSim_comm (a b : String) : cosineSim a b = cosineSim b a := by
  unfold cosineSim
  rw [dotAB_comm a b, dotAA_swap a b, dotBB_swap a b]
  ring

lemma cosineSim_nonneg (a b : String) : 0 ≤ cosineSim a b := by
  unfold cosineSim
  exact div_nonneg (Nat.cast_nonneg _)
    (mul_nonneg (Real.sqrt_nonneg _) (Real.sqrt_nonneg _))

lemma dotAB_cast (a b : String) :
    ((dotAB a b : ℕ) : ℝ) = ∑ w ∈ vocab a b, (vec a w : ℝ) * (vec b w : ℝ) := by
  unfold dotAB
  push_cast
  rfl

lemma dotAA_cast (a b : String) :
    ((dotAA a b : ℕ) : ℝ) = ∑ w ∈ vocab a b, (vec a w : ℝ) ^ 2 := by
  unfold dotAA
  push_cast
  exact Finset.sum_congr rfl (fun w _ => (pow_two _).symm)

lemma dotBB_cast (a b : String) :
    ((dotBB a b : ℕ) : ℝ) = ∑ w ∈ vocab a b, (vec b w : ℝ) ^ 2 := by
  unfold dotBB
  push_cast
  exact Finset.sum_congr rfl (fun w _ => (pow_two _).symm)

lemma dot_cauchy_schwarz (a b : String) :
    ((dotAB a b : ℕ) : ℝ) ^ 2 ≤ ((dotAA a b : ℕ) : ℝ) * ((dotBB a b : ℕ) : ℝ) := by
  rw [dotAB_cast, dotAA_cast, dotBB_cast]
  exact Finset.sum_mul_sq_le_sq_mul_sq _ _ _

lemma cosineSim_le_one (a b : String) : cosineSim a b ≤ 1 := by
  have hA : (0 : ℝ) ≤ (dotAA a b : ℝ) := Nat.cast_nonneg _
  have hX : (0 : ℝ) ≤ (dotAB a b : ℝ) := Nat.cast_nonneg _
  have hle : (dotAB a b : ℝ) ≤ Real.sqrt (dotAA a b) * Real.sqrt (dotBB a b) := by
    rw [← Real.sqrt_mul hA]
    calc (dotAB a b : ℝ) = Real.sqrt ((dotAB a b : ℝ) ^ 2) := (Real.sqrt_sq hX).symm
    _ ≤ Real.sqrt ((dotAA a b : ℝ) * (dotBB a b : ℝ)) :=
        Real.sqrt_le_sqrt (dot_cauchy_schwarz a b)
  unfold cosineSim
  rcases eq_or_lt_of_le
      (mul_nonneg (Real.sqrt_nonneg ((dotAA a b : ℕ) : ℝ))
        (Real.sqrt_nonneg ((dotBB a b : ℕ) : ℝ))) with hD | hD
  · rw [← hD, div_zero]
    exact zero_le_one
  · exact (div_le_one hD).mpr hle

lemma round_le_round_of_le {x y : ℝ} (h : x ≤ y) : round x ≤ round y := by
  rw [round_eq, round_eq]
  exact Int.floor_mono (by linarith)

lemma round2_bounds {y : ℝ} (h0 : 0 ≤ y) (h1 : y ≤ 100) :
    0 ≤ round2 y ∧ round2 y ≤ 100 := by
  unfold round2
  have hl : (0 : ℤ) ≤ round (y * 100) := by
    have := round_le_round_of_le (by linarith : (0 : ℝ) ≤ y * 100)
    rwa [round_zero] at this
  have hu : round (y * 100) ≤ 10000 := by
    have := round_le_round_of_le (by push_cast; linarith : y * 100 ≤ ((10000 : ℤ) : ℝ))
    rwa [round_intCast] at this
  constructor
  · exact div_nonneg (by exact_mod_cast hl) (by norm_num)
  · rw [div_le_iff₀ (by norm_num : (0 : ℝ) < 100)]
    calc ((round (y * 100) : ℤ) : ℝ) ≤ ((10000 : ℤ) : ℝ) := by exact_mod_cast hu
    _ = 100 * 100 := by norm_num

/-! ## Claims about the scorer -/

/-- C6: on an identical pair of texts with at least one recognized token,
match_score returns exactly 100. -/
theorem C6_identical_texts (t : String) (h : tokenize t ≠ []) :
    match_score t t = some 100 := by
  have hv : vocab t t ≠ ∅ := by
    obtain ⟨w, hw⟩ := List.exists_mem_of_ne_nil _ h
    exact Finset.ne_empty_of_mem (mem_vocab_left hw)
  unfold match_score
  rw [if_neg hv, cosineSim_self t h]
  congr 1
  have h100 : ((1 : ℝ) * 100) * 100 = ((10000 : ℤ) : ℝ) := by norm_num
  unfold round2
  rw [h100, round_intCast]
  norm_num

/-- Witness for C6 at a concrete input. -/
theorem C6_identical_texts_witness :
    tokenize "ab" ≠ [] ∧ match_score "ab" "ab" = some 100 :=
  ⟨by decide, C6_identical_texts "ab" (by decide)⟩

/-- C7 counterexample: the two empty texts have (vacuously) disjoint
vocabularies, yet match_score raises the empty-vocabulary error instead of
returning 0. -/
theorem C7_disjoint_counterexample :
    (∀ w, w ∈ tokenize "" → w ∉ tokenize "") ∧ match_score "" "" ≠ some 0 := by
  constructor
  · intro w hw
    rw [show tokenize "" = [] from rfl] at hw
    exact absurd hw (List.not_mem_nil w)
  · have hv : vocab "" "" = ∅ := by decide
    unfold match_score
    rw [if_pos hv]
    exact fun h => Option.noConfusion h

/-- C7 amended: for texts with disjoint vocabularies at least one of which
contains a recognized token, match_score returns exactly 0. -/
theorem C7_disjoint_vocabularies (a b : String)
    (hdisj : ∀ w, w ∈ tokenize a → w ∉ tokenize b)
    (hne : tokenize a ≠ [] ∨ tokenize b ≠ []) :
    match_score a b = some 0 := by
  have hv : vocab a b ≠ ∅ := by
    rcases hne with h | h
    · obtain ⟨w, hw⟩ := List.exists_mem_of_ne_nil _ h
      exact Finset.ne_empty_of_mem (mem_vocab_left hw)
    · obtain ⟨w, hw⟩ := List.exists_mem_of_ne_nil _ h
      exact Finset.ne_empty_of_mem (mem_vocab_right hw)
  have hdot : dotAB a b = 0 := by
    refine Finset.sum_eq_zero (fun w _ => ?_)
    by_cases h : w ∈ tokenize a
    · rw [vec_eq_zero (hdisj w h), Nat.mul_zero]
    · rw [vec_eq_zero h, Nat.zero_mul]
  have hcos : cosineSim a b = 0 := by
    unfold cosineSim
    rw [hdot]
    simp
  unfold match_score
  rw [if_neg hv, hcos]
  congr 1
  unfold round2
  norm_num

/-- Witness for the amended C7 at a concrete input. -/
theorem C7_disjoint_vocabularies_witness :
    (∀ w, w ∈ tokenize "hello" → w ∉ tokenize "world") ∧
    match_score "hello" "world" = some 0 := by
  have hd : ∀ w, w ∈ tokenize "hello" → w ∉ tokenize "world" := by
    intro w hw
    rw [show tokenize "hello" = ["hello"] from rfl] at hw
    rw [List.mem_singleton] at hw
    subst hw
    decide
  exact ⟨hd, C7_disjoint_vocabularies "hello" "world" hd (Or.inl (by decide))⟩

/-- C8: match_score is symmetric in its two arguments, the raising case
included. -/
theorem C8_symmetric (a b : String) : match_score a b = match_score b a := by
  unfold match_score
  rw [vocab_comm, cosineSim_comm]

/-- C9: whenever match_score produces a result, the result is in [0, 100],
is an integer multiple of 1/100 (two decimal places), and depends only on
the two input texts. -/
theorem C9_result_range (a b : String) (hv : vocab a b ≠ ∅) :
    ∃ s : ℝ, match_score a b = some s ∧ 0 ≤ s ∧ s ≤ 100 ∧
      (∃ k : ℤ, s = (k : ℝ) / 100) ∧
      (∀ a2 b2, a2 = a → b2 = b → match_score a2 b2 = match_score a b) := by
  have hc0 := cosineSim_nonneg a b
  have hc1 := cosineSim_le_one a b
  obtain ⟨hl, hu⟩ := round2_bounds
    (by linarith : (0 : ℝ) ≤ cosineSim a b * 100)
    (by linarith : cosineSim a b * 100 ≤ 100)
  refine ⟨round2 (cosineSim a b * 100), ?_, hl, hu, ?_, ?_⟩
  · unfold match_score
    rw [if_neg hv]
  · exact ⟨round (cosineSim a b * 100 * 100), rfl⟩
  · intro a2 b2 h1 h2
    rw [h1, h2]

/-- Witness for C9 at a concrete input. -/
theorem C9_result_range_witness :
    vocab "hello" "world" ≠ ∅ ∧
    ∃ s : ℝ, match_score "hello" "world" = some s ∧ 0 ≤ s ∧ s ≤ 100 ∧
      (∃ k : ℤ, s = (k : ℝ) / 100) ∧
      (∀ a2 b2, a2 = "hello" → b2 = "world" →
        match_score a2 b2 = match_score "hello" "world") :=
  ⟨by decide, C9_result_range "hello" "world" (by decide)⟩

/-- C10: when the vectorizer finds no token in either text, match_score has
no numeric result: it raises the empty-vocabulary error, modelled as none. -/
theorem C10_no_tokens (a b : String) (ha : tokenize a = [])
    (hb : tokenize b = []) : match_score a b = none := by
  have hv : vocab a b = ∅ := by
    unfold vocab
    rw [ha, hb]
    rfl
  unfold match_score
  rw [if_pos hv]

/-- Witness for C10 at concrete inputs: the empty text and a text made of
punctuation and single-character words only. -/
theorem C10_no_tokens_witness :
    tokenize "" = [] ∧ tokenize "a ,b !c" = [] ∧
    match_score "" "a ,b !c" = none :=
  ⟨rfl, by decide, C10_no_tokens "" "a ,b !c" rfl (by decide)⟩

end ResumeSudharak
